import Mathlib

/-!
Shallow embedding of `src/include/grl/vrep/AtracsysFusionTrackVrepPlugin.hpp`
(class `AtracsysFusionTrackVrepPlugin`).

Modelling conventions:
* Rigid-body transforms (`Eigen::Affine3f`) are an abstract type parameter `α`
  together with an inversion function `inv : α → α` (the transform math is an
  out-of-scope collaborator).
* VREP object handles are integers produced by an abstract resolution function
  `handleOf : String → Int` (`grl::vrep::getHandle` is an out-of-scope
  collaborator).
* `boost::lexical_cast<int>` is modelled concretely as `lexicalCastInt`,
  returning `none` where the cast would throw.
* The mutex-protected mutable fields of the class are gathered in
  `PluginState`; each member function becomes a function on that state.
  `run_one` returns the ordered list of `setObjectTransform` invocations it
  performs together with an optional raised error.
* The background `update()` thread is split into its two phases exactly as in
  the source: the try-guarded initialisation (`update_init`) and one iteration
  of the while loop (`update_loop_iteration`).  A `receive` failure inside the
  loop is not inside any try block in the source, so it is modelled as an
  `uncaughtReceive` outcome, distinct from a captured fault.
* The flatbuffer builder is modelled by the list of frame messages serialized
  into it, and the message buffer by the list of offsets pushed into it;
  both are `Option`s because the corresponding `shared_ptr`s can be null.
-/

namespace grl

/-- Accumulator-style decimal digit run parser used by `lexicalCastInt`:
returns the value of a non-empty all-digit character list, `none` otherwise. -/
def parseDigitsAux : List Char → Nat → Option Nat
  | [], acc => some acc
  | c :: cs, acc =>
    if c.isDigit then parseDigitsAux cs (acc * 10 + (c.toNat - 48)) else none

/-- Model of `boost::lexical_cast<int>` on a string: an optional sign followed
by at least one digit and nothing else; `none` models the thrown
`bad_lexical_cast`. -/
def lexicalCastInt (s : String) : Option Int :=
  match s.data with
  | [] => none
  | '-' :: [] => none
  | '-' :: c :: cs => (parseDigitsAux (c :: cs) 0).map (fun n => -(n : Int))
  | '+' :: [] => none
  | '+' :: c :: cs => (parseDigitsAux (c :: cs) 0).map (fun n => (n : Int))
  | cs => (parseDigitsAux cs 0).map (fun n => (n : Int))

/-- C++ `MotionConfigParams`: the 4-tuple of strings
(ObjectToMove, FrameInWhichToMoveObject, ObjectBeingMeasured, GeometryID). -/
structure MotionConfigParams where
  objectToMove : String
  frameInWhichToMoveObject : String
  objectBeingMeasured : String
  geometryID : String
  deriving DecidableEq, Repr

/-- C++ `VrepMotionConfigTuple`: resolved integer handles
(object to move, frame in which to move it, object being measured). -/
abbrev VrepMotionConfigTuple := Int × Int × Int

/-- C++ `GeometryIDToVrepMotionConfigMap` (`std::map<int, VrepMotionConfigTuple>`),
modelled by its lookup function. -/
abbrev GeometryIDToVrepMotionConfigMap := Int → Option VrepMotionConfigTuple

/-- The empty configuration map (freshly constructed / after `clear()`). -/
def emptyConfigMap : GeometryIDToVrepMotionConfigMap := fun _ => none

/-- Resolution of the three object-name strings of a `MotionConfigParams` to
VREP handles (`grl::vrep::getHandleFromParam` applied at the three indices). -/
def resolveConfig (handleOf : String → Int) (mcp : MotionConfigParams) :
    VrepMotionConfigTuple :=
  (handleOf mcp.objectToMove, handleOf mcp.frameInWhichToMoveObject,
    handleOf mcp.objectBeingMeasured)

/-- Error raised by `boost::lexical_cast` on a malformed geometry-id string. -/
inductive ParseError where
  | lexicalCastFailure
  deriving DecidableEq, Repr

/-- C++ `MotionConfigParamsAddConfig`: `IDToHandleConfig[lexical_cast<int>(GeometryID)]
= make_tuple(...)`.  On a cast failure the exception propagates and the map is
left unchanged; otherwise `operator[]` assignment replaces any existing entry. -/
def MotionConfigParamsAddConfig (handleOf : String → Int)
    (motionConfig : MotionConfigParams) (IDToHandleConfig : GeometryIDToVrepMotionConfigMap) :
    GeometryIDToVrepMotionConfigMap × Option ParseError :=
  match lexicalCastInt motionConfig.geometryID with
  | none => (IDToHandleConfig, some .lexicalCastFailure)
  | some gid =>
    (fun x => if x = gid then some (resolveConfig handleOf motionConfig)
              else IDToHandleConfig x,
     none)

/-- C++ `std::map::erase(GeometryID)`: removes the entry if present,
no effect (and no error) if absent. -/
def removeGeometryMap (g : Int) (m : GeometryIDToVrepMotionConfigMap) :
    GeometryIDToVrepMotionConfigMap :=
  fun x => if x = g then none else m x

/-- C++ `MotionConfigParamsToVrepHandleConfigMap`: folds
`MotionConfigParamsAddConfig` over the configurations; a cast failure aborts
the loop by propagating the exception. -/
def MotionConfigParamsToVrepHandleConfigMap (handleOf : String → Int) :
    List MotionConfigParams → GeometryIDToVrepMotionConfigMap →
    Except ParseError GeometryIDToVrepMotionConfigMap
  | [], m => .ok m
  | motionConfig :: rest, m =>
    match MotionConfigParamsAddConfig handleOf motionConfig m with
    | (m1, none) => MotionConfigParamsToVrepHandleConfigMap handleOf rest m1
    | (_, some e) => .error e

/-- One detected marker of a `FusionTrack::Frame`: its geometry id and its
measured transform (already converted by `ftkMarkerToAffine3f`). -/
structure Marker (α : Type) where
  geometryId : Int
  pose : α
  deriving DecidableEq, Repr

/-- One `simSetObjectPosition`-style target update:
(object to move, frame in which to move it, transform). -/
abbrev SetTransformCall (α : Type) := Int × Int × α

/-- A fault captured from the driver-thread initialisation
(`std::exception_ptr` payload), identified by an abstract code. -/
structure ConnFault where
  code : Nat
  deriving DecidableEq, Repr

/-- A failure of the blocking `receive` call in the driver loop. -/
structure ReceiveError where
  code : Nat
  deriving DecidableEq, Repr

/-- Errors that `run_one` can raise to its caller: the rethrown captured
fault, the unsupported-configuration `std::runtime_error`, and the
`BOOST_VERIFY` abort on missing components. -/
inductive RunError where
  | capturedFault (e : ConnFault)
  | unsupportedConfiguration
  | verifyFailed
  deriving DecidableEq, Repr

/-- The marker loop of `run_one` (lines 220-240): for each marker, look up its
geometry id (skip silently if unconfigured); invert the transform when the
tracker base is the object to move and the frame to move within equals the
object being measured; otherwise throw if the frame to move within is not the
tracker base; otherwise use the transform as measured; then record the
`setObjectTransform` call.  Returns the calls made in order and the error, if
one was thrown (which stops the loop). -/
def processMarkers {α : Type} (base : Int) (cfg : GeometryIDToVrepMotionConfigMap)
    (inv : α → α) : List (Marker α) → List (SetTransformCall α) × Option RunError
  | [] => ([], none)
  | marker :: rest =>
    match cfg marker.geometryId with
    | none => processMarkers base cfg inv rest
    | some (mo, fr, me) =>
      if base = mo ∧ fr = me then
        let tail := processMarkers base cfg inv rest
        ((mo, fr, inv marker.pose) :: tail.1, tail.2)
      else if fr ≠ base then
        ([], some .unsupportedConfiguration)
      else
        let tail := processMarkers base cfg inv rest
        ((mo, fr, marker.pose) :: tail.1, tail.2)

/-- One pending `save_recording` worker thread: the detached (possibly null)
flatbuffer builder, the detached (possibly null) message-offset vector, and
the destination filename captured by the lambda. -/
structure SaveTask (α : Type) where
  builder : Option (List (List (Marker α)))
  messages : Option (List Nat)
  filename : String
  deriving DecidableEq, Repr

/-- The mutable state of `AtracsysFusionTrackVrepPlugin` relevant to its
observable behaviour. -/
structure PluginState (α : Type) where
  /-- `exceptionPtr`: fault captured from the driver thread, if any. -/
  exceptionPtr : Option ConnFault
  /-- `isConnectionEstablished_` atomic flag. -/
  isConnectionEstablished : Bool
  /-- `allHandlesSet` flag set at the end of `initHandles`. -/
  allHandlesSet : Bool
  /-- `m_shouldStop` atomic flag. -/
  shouldStop : Bool
  /-- whether `opticalTrackerP` is non-null. -/
  opticalTracker : Bool
  /-- `m_opticalTrackerBase` resolved handle. -/
  opticalTrackerBase : Int
  /-- `m_receivedFrame` (null before initialisation). -/
  receivedFrame : Option (List (Marker α))
  /-- `m_nextState` (null before initialisation). -/
  nextState : Option (List (Marker α))
  /-- `m_geometryIDToVrepMotionConfigMap`. -/
  configMap : GeometryIDToVrepMotionConfigMap
  /-- `m_isRecording` atomic flag. -/
  isRecording : Bool
  /-- `m_logFileBufferBuilderP`: serialized frame messages in the builder. -/
  logFileBufferBuilder : Option (List (List (Marker α)))
  /-- `m_KUKAiiwaFusionTrackMessageBufferP`: offsets pushed into the vector. -/
  messageBuffer : Option (List Nat)
  /-- `m_saveRecordingThreads`. -/
  saveRecordingThreads : List (SaveTask α)
  /-- whether `m_driverThread` is non-null (set by `construct()`). -/
  driverThread : Bool

/-- C++ `run_one()`: rethrow a captured fault first; return silently while the
connection is not established or handles are unset; `BOOST_VERIFY` the frame
pointers and the device handle; then run the marker loop on the received
frame. -/
def run_one {α : Type} (inv : α → α) (s : PluginState α) :
    List (SetTransformCall α) × Option RunError :=
  match s.exceptionPtr with
  | some e => ([], some (.capturedFault e))
  | none =>
    if !s.isConnectionEstablished || !s.allHandlesSet then
      ([], none)
    else
      match s.receivedFrame, s.nextState, s.opticalTracker with
      | some frame, some _, true =>
        processMarkers s.opticalTrackerBase s.configMap inv frame
      | _, _, _ => ([], some .verifyFailed)

/-- C++ `add_object(mcp)`: `MotionConfigParamsAddConfig` on the member map
under the lock (a cast failure propagates, leaving the map unchanged). -/
def add_object {α : Type} (handleOf : String → Int) (mcp : MotionConfigParams)
    (s : PluginState α) : PluginState α :=
  { s with configMap := (MotionConfigParamsAddConfig handleOf mcp s.configMap).1 }

/-- C++ `clear_objects()`: `m_geometryIDToVrepMotionConfigMap.clear()`. -/
def clear_objects {α : Type} (s : PluginState α) : PluginState α :=
  { s with configMap := emptyConfigMap }

/-- C++ `remove_geometry(int)`: erase the entry for the id. -/
def remove_geometry {α : Type} (g : Int) (s : PluginState α) : PluginState α :=
  { s with configMap := removeGeometryMap g s.configMap }

/-- C++ `remove_geometry(std::string)`: `lexical_cast` then the int overload;
a cast failure propagates and changes nothing. -/
def remove_geometry_str {α : Type} (str : String) (s : PluginState α) : PluginState α :=
  match lexicalCastInt str with
  | some g => remove_geometry g s
  | none => s

/-- C++ `start_recording()`. -/
def start_recording {α : Type} (s : PluginState α) : PluginState α :=
  { s with isRecording := true }

/-- C++ `stop_recording()`. -/
def stop_recording {α : Type} (s : PluginState α) : PluginState α :=
  { s with isRecording := false }

/-- The filename computation at the top of `save_recording`: an empty argument
is replaced by `current_date_and_time_string() + "FusionTrack.flik"`. -/
def saveFilename (timestamp filename : String) : String :=
  if filename = "" then timestamp ++ "FusionTrack.flik" else filename

/-- C++ `save_recording(filename)`: under the lock, move the builder and the
message vector into the save lambda, push the new thread onto
`m_saveRecordingThreads`, then allocate a fresh empty builder and message
vector.  `timestamp` stands for `current_date_and_time_string()`. -/
def save_recording {α : Type} (s : PluginState α) (filename timestamp : String) :
    PluginState α :=
  { s with
    saveRecordingThreads :=
      s.saveRecordingThreads ++
        [⟨s.logFileBufferBuilder, s.messageBuffer, saveFilename timestamp filename⟩],
    logFileBufferBuilder := some [],
    messageBuffer := some [] }

/-- Crash of a save worker: the lambda dereferences `save_fbbP` and
`save_KUKAiiwaFusionTrackMessageBufferP` unconditionally, so a null pointer is
a null dereference. -/
inductive SaveCrash where
  | nullDereference
  deriving DecidableEq, Repr

/-- The body of the save lambda: `CreateVector(*save_KUKAiiwaFusionTrackMessageBufferP)`,
`Finish`, verify, `SaveFile`.  With both pointers non-null it finalizes and
writes exactly the detached data to the captured filename; with either pointer
null it dereferences null. -/
def runSaveTask {α : Type} (t : SaveTask α) :
    Except SaveCrash (List (List (Marker α)) × List Nat × String) :=
  match t.builder, t.messages with
  | some b, some ms => .ok (b, ms, t.filename)
  | _, _ => .error .nullDereference

/-- C++ `clear_recording()`: reset both shared pointers to null. -/
def clear_recording {α : Type} (s : PluginState α) : PluginState α :=
  { s with logFileBufferBuilder := none, messageBuffer := none }

/-- The recording block inside the driver loop (lines 348-365): if the builder
is null, allocate a fresh builder and message vector; then serialize the
just-received frame into the builder (`toFlatBuffer`) and push its offset.
Returns `none` for the null-`push_back` undefined behaviour when the builder
is non-null but the message vector is null (unreachable from the constructor
state). -/
def recordFrame {α : Type} (s : PluginState α) (frame : List (Marker α)) :
    Option (PluginState α) :=
  match s.logFileBufferBuilder with
  | none =>
    some { s with logFileBufferBuilder := some [frame], messageBuffer := some [0] }
  | some b =>
    match s.messageBuffer with
    | some ms =>
      some { s with logFileBufferBuilder := some (b ++ [frame]),
                    messageBuffer := some (ms ++ [b.length]) }
    | none => none

/-- The initialisation phase of the driver thread `update()` (the try block,
lines 323-339): on success the device is constructed, both frame pointers are
allocated and the connection flag is set; on any failure the exception is
captured into `exceptionPtr` and `m_shouldStop` is set. -/
def update_init {α : Type} (s : PluginState α) (connectResult : Except ConnFault Unit) :
    PluginState α :=
  match connectResult with
  | .ok _ =>
    { s with opticalTracker := true, receivedFrame := some [],
             nextState := some [], isConnectionEstablished := true }
  | .error e => { s with exceptionPtr := some e, shouldStop := true }

/-- Outcome of one check of the driver while loop (lines 343-371). -/
inductive LoopStep (α : Type) where
  /-- `m_shouldStop` was set: the loop exits. -/
  | exited (s : PluginState α)
  /-- `receive` threw; the exception is outside every try block and escapes
  the thread uncaught. -/
  | uncaughtReceive (e : ReceiveError) (s : PluginState α)
  /-- a frame was received, optionally recorded, and the buffers swapped. -/
  | iterated (s : PluginState α)
  /-- undefined behaviour (null `push_back`) in the recording block. -/
  | crashed (s : PluginState α)

/-- One iteration of the driver while loop: test `m_shouldStop`; block on
`receive` into `m_nextState`; under the lock, append to the recording if
recording is active; then swap `m_receivedFrame` and `m_nextState`. -/
def update_loop_iteration {α : Type} (s : PluginState α)
    (recvResult : Except ReceiveError (List (Marker α))) : LoopStep α :=
  if s.shouldStop then .exited s
  else
    match recvResult with
    | .error e => .uncaughtReceive e s
    | .ok frame =>
      let s0 := { s with nextState := some frame }
      if s.isRecording then
        match recordFrame s0 frame with
        | some s1 =>
          .iterated { s1 with receivedFrame := s1.nextState, nextState := s1.receivedFrame }
        | none => .crashed s0
      else
        .iterated { s0 with receivedFrame := s0.nextState, nextState := s0.receivedFrame }

/-- The state after a loop-step outcome, whatever the outcome was. -/
def loopStepState {α : Type} : LoopStep α → PluginState α
  | .exited s => s
  | .uncaughtReceive _ s => s
  | .iterated s => s
  | .crashed s => s

/-- A join performed during `destruct()`: either of `m_driverThread` or of an
element of `m_saveRecordingThreads`. -/
inductive JoinTarget where
  | driver
  | saveThread (idx : Nat)
  deriving DecidableEq, Repr

/-- C++ `destruct()` (lines 138-150): set `m_shouldStop`, join
`m_driverThread` if present, then for every element of
`m_saveRecordingThreads` the loop body joins `m_driverThread` again (the loop
variable `saveThreadP` is never used).  Returns the new state and the ordered
list of join targets. -/
def destruct {α : Type} (s : PluginState α) : PluginState α × List JoinTarget :=
  ({ s with shouldStop := true },
   (if s.driverThread then [JoinTarget.driver] else []) ++
     s.saveRecordingThreads.map (fun _ => JoinTarget.driver))

/-- The constructor parameters relevant to handle resolution:
`Params::OpticalTrackerBase` and `Params::MotionConfigParamsVector` (the
device parameters are an out-of-scope collaborator). -/
structure PluginParams where
  opticalTrackerBase : String
  motionConfigParamsVector : List MotionConfigParams

/-- C++ `moveBoneParams()` (the default params): geometry id "55" configured
as (Move="OpticalTrackerBase#0", Within="Fiducial#55", Measured="Fiducial#55"). -/
def moveBoneParams : PluginParams :=
  { opticalTrackerBase := "OpticalTrackerBase#0",
    motionConfigParamsVector :=
      [⟨"OpticalTrackerBase#0", "Fiducial#55", "Fiducial#55", "55"⟩] }

/-- C++ `initHandles()`: resolve the tracker-base handle and build the
geometry-id-to-handles map from the params. -/
def initHandles (handleOf : String → Int) (p : PluginParams) :
    Except ParseError (Int × GeometryIDToVrepMotionConfigMap) :=
  match MotionConfigParamsToVrepHandleConfigMap handleOf p.motionConfigParamsVector
      emptyConfigMap with
  | .ok m => .ok (handleOf p.opticalTrackerBase, m)
  | .error e => .error e

/-- A healthy post-connection state: no captured fault, connection
established, handles set, device present, given base handle, config map and
received frame, empty recording state. -/
def mkConnectedState {α : Type} (base : Int) (cfg : GeometryIDToVrepMotionConfigMap)
    (frame : List (Marker α)) : PluginState α :=
  { exceptionPtr := none, isConnectionEstablished := true, allHandlesSet := true,
    shouldStop := false, opticalTracker := true, opticalTrackerBase := base,
    receivedFrame := some frame, nextState := some [], configMap := cfg,
    isRecording := false, logFileBufferBuilder := none, messageBuffer := none,
    saveRecordingThreads := [], driverThread := true }

/-- The concrete scenario of the spec: the plugin constructed with
`moveBoneParams`, handles resolved, connection established, and a received
frame holding exactly marker 55 with transform `T`. -/
def scenarioState {α : Type} (handleOf : String → Int) (T : α) : PluginState α :=
  match initHandles handleOf moveBoneParams with
  | .ok (base, cfg) => mkConnectedState base cfg [⟨55, T⟩]
  | .error _ => mkConnectedState 0 emptyConfigMap []

/-- The consumer-facing and driver-side operations that can run between a
captured fault and teardown. -/
inductive PluginOp (α : Type) where
  | addObject (mcp : MotionConfigParams)
  | removeGeometryInt (g : Int)
  | removeGeometryString (str : String)
  | clearObjects
  | startRecording
  | stopRecording
  | saveRecordingOp (filename timestamp : String)
  | clearRecordingOp
  | tick
  | loopStep (recv : Except ReceiveError (List (Marker α)))
  | destructOp

/-- The state transition of each operation (`tick` = `run_one` reads but never
writes the plugin state). -/
def applyPluginOp {α : Type} (handleOf : String → Int) :
    PluginOp α → PluginState α → PluginState α
  | .addObject mcp, s => add_object handleOf mcp s
  | .removeGeometryInt g, s => remove_geometry g s
  | .removeGeometryString str, s => remove_geometry_str str s
  | .clearObjects, s => clear_objects s
  | .startRecording, s => start_recording s
  | .stopRecording, s => stop_recording s
  | .saveRecordingOp fn ts, s => save_recording s fn ts
  | .clearRecordingOp, s => clear_recording s
  | .tick, s => s
  | .loopStep recv, s => loopStepState (update_loop_iteration s recv)
  | .destructOp, s => (destruct s).1

/-- Sequential application of operations, oldest first. -/
def applyPluginOps {α : Type} (handleOf : String → Int) :
    List (PluginOp α) → PluginState α → PluginState α
  | [], s => s
  | op :: rest, s => applyPluginOps handleOf rest (applyPluginOp handleOf op s)

/-- A configuration-surface call: `add_object`, either `remove_geometry`
overload, or `clear_objects`, viewed as acting on the map. -/
inductive ConfigOp where
  | addObject (mcp : MotionConfigParams)
  | removeGeometryInt (g : Int)
  | removeGeometryString (str : String)
  | clearObjects
  deriving Repr

/-- The map transition of one configuration call (a failed `lexical_cast`
raises to the caller and leaves the map unchanged). -/
def applyConfigOp (handleOf : String → Int) :
    ConfigOp → GeometryIDToVrepMotionConfigMap → GeometryIDToVrepMotionConfigMap
  | .addObject mcp, m => (MotionConfigParamsAddConfig handleOf mcp m).1
  | .removeGeometryInt g, m => removeGeometryMap g m
  | .removeGeometryString str, m =>
    match lexicalCastInt str with
    | some g => removeGeometryMap g m
    | none => m
  | .clearObjects, _ => emptyConfigMap

/-- Sequential application of configuration calls, oldest first. -/
def applyConfigOps (handleOf : String → Int) :
    List ConfigOp → GeometryIDToVrepMotionConfigMap → GeometryIDToVrepMotionConfigMap
  | [], m => m
  | op :: rest, m => applyConfigOps handleOf rest (applyConfigOp handleOf op m)

/-- Modelled from the spec: the last-write-wins reading of a call history.
Scanning the calls most-recent-first, a geometry id maps to the configuration
of its most recent successful add, unless a remove of that id or a clear
intervened; ids never touched fall through to the initial map. -/
def mostRecentAddLookup (handleOf : String → Int) :
    List ConfigOp → GeometryIDToVrepMotionConfigMap → Int → Option VrepMotionConfigTuple
  | [], m, g => m g
  | .addObject mcp :: rest, m, g =>
    match lexicalCastInt mcp.geometryID with
    | some i =>
      if g = i then some (resolveConfig handleOf mcp)
      else mostRecentAddLookup handleOf rest m g
    | none => mostRecentAddLookup handleOf rest m g
  | .removeGeometryInt i :: rest, m, g =>
    if g = i then none else mostRecentAddLookup handleOf rest m g
  | .removeGeometryString str :: rest, m, g =>
    match lexicalCastInt str with
    | some i => if g = i then none else mostRecentAddLookup handleOf rest m g
    | none => mostRecentAddLookup handleOf rest m g
  | .clearObjects :: _, _, _ => none

/-- A concrete pre-connection state carrying a captured initialisation fault:
`update_init` failed before `isConnectionEstablished_` was ever set. -/
def faultedPreConnectionState : PluginState Int :=
  update_init
    { exceptionPtr := none, isConnectionEstablished := false, allHandlesSet := false,
      shouldStop := false, opticalTracker := false, opticalTrackerBase := 0,
      receivedFrame := none, nextState := none, configMap := emptyConfigMap,
      isRecording := false, logFileBufferBuilder := none, messageBuffer := none,
      saveRecordingThreads := [], driverThread := true }
    (.error ⟨7⟩)

/-- A concrete pre-connection state with no captured fault. -/
def preConnectionState : PluginState Int :=
  { exceptionPtr := none, isConnectionEstablished := false, allHandlesSet := false,
    shouldStop := false, opticalTracker := false, opticalTrackerBase := 0,
    receivedFrame := none, nextState := none, configMap := emptyConfigMap,
    isRecording := false, logFileBufferBuilder := none, messageBuffer := none,
    saveRecordingThreads := [], driverThread := false }

/-- A connected state with one outstanding save-recording thread, for
exercising `destruct`. -/
def destructCexState : PluginState Int :=
  { mkConnectedState 0 emptyConfigMap [] with
    saveRecordingThreads := [⟨some [], some [], "x.flik"⟩] }

/-- A connected state whose map configures geometry 5 to move object 1 within
frame 2 while measuring object 3, against tracker base 9: the unsupported
combination. -/
def unsupportedCfgMap : GeometryIDToVrepMotionConfigMap :=
  fun x => if x = 5 then some (1, 2, 3) else none

/-- A config map for exercising the inversion branch: geometry 5 moves the
tracker base (handle 8) within frame 2 while measuring object 2. -/
def c1WitnessCfg : GeometryIDToVrepMotionConfigMap :=
  fun x => if x = 5 then some (8, 2, 2) else none

/-- A concrete handle-resolution collaborator for witnesses. -/
def c1WitnessHandle : String → Int := fun str => (str.length : Int)

/-- A config map holding one supported-inverted entry (geometry 5) and one
unsupported entry (geometry 6), against tracker base 8. -/
def c10Cfg : GeometryIDToVrepMotionConfigMap :=
  fun x => if x = 5 then some (8, 2, 2) else if x = 6 then some (1, 2, 3) else none

/-- A connected state with an active recording buffer holding one serialized
frame. -/
def recordingState : PluginState Int :=
  { mkConnectedState 0 emptyConfigMap [] with
    logFileBufferBuilder := some [[⟨1, 2⟩]], messageBuffer := some [0] }

/-- Appending one call at the end of the history shifts it to the bottom of
the most-recent-first scan: it acts on the fallback map instead. -/
theorem mostRecentAddLookup_append (handleOf : String → Int) (l : List ConfigOp)
    (op : ConfigOp) (m : GeometryIDToVrepMotionConfigMap) (g : Int) :
    mostRecentAddLookup handleOf (l ++ [op]) m g =
      mostRecentAddLookup handleOf l (applyConfigOp handleOf op m) g := by
  induction l with
  | nil =>
    cases op with
    | addObject mcp =>
      cases hlc : lexicalCastInt mcp.geometryID with
      | none =>
        simp [mostRecentAddLookup, applyConfigOp, MotionConfigParamsAddConfig, hlc]
      | some i =>
        simp [mostRecentAddLookup, applyConfigOp, MotionConfigParamsAddConfig, hlc]
    | removeGeometryInt i =>
      simp [mostRecentAddLookup, applyConfigOp, removeGeometryMap]
    | removeGeometryString str =>
      cases hlc : lexicalCastInt str with
      | none => simp [mostRecentAddLookup, applyConfigOp, hlc]
      | some i => simp [mostRecentAddLookup, applyConfigOp, hlc, removeGeometryMap]
    | clearObjects => simp [mostRecentAddLookup, applyConfigOp, emptyConfigMap]
  | cons o rest ih =>
    cases o with
    | addObject mcp =>
      cases hlc : lexicalCastInt mcp.geometryID with
      | none => simp [mostRecentAddLookup, hlc, ih]
      | some i => simp [mostRecentAddLookup, hlc, ih]
    | removeGeometryInt i => simp [mostRecentAddLookup, ih]
    | removeGeometryString str =>
      cases hlc : lexicalCastInt str with
      | none => simp [mostRecentAddLookup, hlc, ih]
      | some i => simp [mostRecentAddLookup, hlc, ih]
    | clearObjects => simp [mostRecentAddLookup]

/-- The lookup after a call history equals the most-recent-first scan of the
reversed history. -/
theorem applyConfigOps_lookup (handleOf : String → Int) (ops : List ConfigOp)
    (m : GeometryIDToVrepMotionConfigMap) (g : Int) :
    applyConfigOps handleOf ops m g = mostRecentAddLookup handleOf ops.reverse m g := by
  induction ops generalizing m with
  | nil => rfl
  | cons op rest ih =>
    rw [show applyConfigOps handleOf (op :: rest) m =
          applyConfigOps handleOf rest (applyConfigOp handleOf op m) from rfl,
      List.reverse_cons, mostRecentAddLookup_append]
    exact ih (applyConfigOp handleOf op m)

/-- C5: for all sequences of add_object / remove_geometry / clear_objects
calls starting from the empty map, the map contains exactly the geometry ids
added and not subsequently removed or cleared, each mapped to the
configuration of its most recent add (last-write-wins per id); and removing
an absent id is a no-op, not an error. -/
theorem config_map_last_write_wins (handleOf : String → Int) (ops : List ConfigOp)
    (g : Int) (m : GeometryIDToVrepMotionConfigMap) :
    applyConfigOps handleOf ops emptyConfigMap g =
      mostRecentAddLookup handleOf ops.reverse emptyConfigMap g ∧
    (m g = none → applyConfigOp handleOf (.removeGeometryInt g) m = m) := by
  refine ⟨applyConfigOps_lookup handleOf ops emptyConfigMap g, fun h => ?_⟩
  funext x
  simp only [applyConfigOp, removeGeometryMap]
  by_cases hx : x = g
  · subst hx
    simp [h]
  · simp [hx]

/-- C5 witness: a concrete history (add id 7 then remove id 3) evaluated at
id 7, and a remove of the absent id 7 on the empty map. -/
theorem config_map_last_write_wins_witness :
    applyConfigOps c1WitnessHandle
        [ConfigOp.addObject ⟨"a", "b", "c", "7"⟩, ConfigOp.removeGeometryInt 3]
        emptyConfigMap 7 =
      mostRecentAddLookup c1WitnessHandle
        ([ConfigOp.addObject ⟨"a", "b", "c", "7"⟩, ConfigOp.removeGeometryInt 3]).reverse
        emptyConfigMap 7 ∧
    applyConfigOp c1WitnessHandle (.removeGeometryInt 7) emptyConfigMap = emptyConfigMap :=
  ⟨(config_map_last_write_wins c1WitnessHandle
      [ConfigOp.addObject ⟨"a", "b", "c", "7"⟩, ConfigOp.removeGeometryInt 3] 7
      emptyConfigMap).1,
   (config_map_last_write_wins c1WitnessHandle
      [ConfigOp.addObject ⟨"a", "b", "c", "7"⟩, ConfigOp.removeGeometryInt 3] 7
      emptyConfigMap).2 rfl⟩

/-- C8: an empty filename argument is replaced by the current timestamp
followed by the fixed suffix FusionTrack. and the extension flik; a non-empty
filename is used unchanged. -/
theorem save_recording_default_filename (timestamp filename : String) :
    saveFilename timestamp "" = timestamp ++ ("FusionTrack." ++ "flik") ∧
    (filename ≠ "" → saveFilename timestamp filename = filename) := by
  constructor
  · show (if ("" : String) = "" then timestamp ++ "FusionTrack.flik" else "") = _
    rw [if_pos rfl]
    exact congrArg (fun x => timestamp ++ x) (by decide)
  · intro h
    simp [saveFilename, h]

/-- C8 witness: concrete timestamp and a concrete non-empty filename. -/
theorem save_recording_default_filename_witness :
    saveFilename "2020" "" = "2020" ++ ("FusionTrack." ++ "flik") ∧
    saveFilename "2020" "a.flik" = "a.flik" :=
  ⟨(save_recording_default_filename "2020" "a.flik").1,
   (save_recording_default_filename "2020" "a.flik").2 (by decide)⟩

/-- C9: calling save_recording with a null builder (never recorded, or
clear_recording since) hands a null builder to the scheduled save task, whose
body dereferences it unconditionally; clear_recording indeed nulls the
builder. -/
theorem save_recording_null_builder_crashes {α : Type} (s : PluginState α)
    (filename timestamp : String) (hb : s.logFileBufferBuilder = none) :
    (save_recording s filename timestamp).saveRecordingThreads =
      s.saveRecordingThreads ++ [⟨none, s.messageBuffer, saveFilename timestamp filename⟩] ∧
    (∀ (msgs : Option (List Nat)) (fname : String),
      runSaveTask (⟨none, msgs, fname⟩ : SaveTask α) = .error .nullDereference) ∧
    ∀ s2 : PluginState α, (clear_recording s2).logFileBufferBuilder = none := by
  refine ⟨by simp [save_recording, hb], fun msgs fname => ?_, fun s2 => rfl⟩
  cases msgs <;> rfl

/-- C9 witness: a fresh connected state (recording never active) flushed with
a concrete filename. -/
theorem save_recording_null_builder_crashes_witness :
    (save_recording (mkConnectedState 0 emptyConfigMap ([] : List (Marker Int))) "f" "t").saveRecordingThreads =
      (mkConnectedState 0 emptyConfigMap ([] : List (Marker Int))).saveRecordingThreads ++
        [⟨none, (mkConnectedState 0 emptyConfigMap ([] : List (Marker Int))).messageBuffer,
          saveFilename "t" "f"⟩] ∧
    (∀ (msgs : Option (List Nat)) (fname : String),
      runSaveTask (⟨none, msgs, fname⟩ : SaveTask Int) = .error .nullDereference) ∧
    ∀ s2 : PluginState Int, (clear_recording s2).logFileBufferBuilder = none :=
  save_recording_null_builder_crashes
    (mkConnectedState 0 emptyConfigMap ([] : List (Marker Int))) "f" "t" rfl

/-- C4 counterexample: with a captured initialisation fault the connection is
not established, yet run_one raises (rethrows the fault) instead of being a
no-op, refuting the claim that run_one before connection never raises. -/
theorem run_one_raises_before_connection :
    faultedPreConnectionState.isConnectionEstablished = false ∧
    run_one (fun t => -t) faultedPreConnectionState =
      ([], some (.capturedFault ⟨7⟩)) :=
  ⟨rfl, rfl⟩

/-- C4 (amended): run_one before the connection is established and while no
acquisition fault has been captured invokes no collaborator and never
raises. -/
theorem run_one_noop_before_connection {α : Type} (inv : α → α) (s : PluginState α)
    (hexc : s.exceptionPtr = none) (hconn : s.isConnectionEstablished = false) :
    run_one inv s = ([], none) := by
  simp [run_one, hexc, hconn]

/-- C4 witness: the concrete fresh pre-connection state. -/
theorem run_one_noop_before_connection_witness :
    run_one (fun t => -t) preConnectionState = ([], none) :=
  run_one_noop_before_connection (fun t => -t) preConnectionState rfl rfl

/-- C7: with one outstanding save-recording thread, destruct joins
m_driverThread twice (the loop body ignores the loop variable) and never
joins the save thread, contradicting the documented shutdown contract. -/
theorem destruct_joins_driver_not_save_threads :
    (destruct destructCexState).2 = [JoinTarget.driver, JoinTarget.driver] ∧
    JoinTarget.saveThread 0 ∉ (destruct destructCexState).2 ∧
    (destruct destructCexState).1.shouldStop = true := by
  refine ⟨rfl, ?_, rfl⟩
  decide

/-- C1: for a configured marker, run_one applies the inverse of the measured
transform exactly when the configured object to move equals the tracker-base
handle and the frame to move within equals the object being measured; and in
the concrete moveBoneParams scenario (geometry 55 as
Move=OpticalTrackerBase#0, Within=Fiducial#55, Measured=Fiducial#55, frame
with marker 55 carrying transform T) the target-update collaborator is
invoked exactly once, with (OpticalTrackerBase#0, Fiducial#55, inverse T). -/
theorem run_one_inversion_condition {α : Type} (handleOf : String → Int) (inv : α → α)
    (base mo fr me g : Int) (cfg : GeometryIDToVrepMotionConfigMap) (T : α)
    (rest : List (Marker α)) :
    (cfg g = some (mo, fr, me) → (fr = base ∨ (base = mo ∧ fr = me)) →
      processMarkers base cfg inv (⟨g, T⟩ :: rest) =
        ((mo, fr, if base = mo ∧ fr = me then inv T else T)
            :: (processMarkers base cfg inv rest).1,
          (processMarkers base cfg inv rest).2)) ∧
    run_one inv (scenarioState handleOf T) =
      ([(handleOf "OpticalTrackerBase#0", handleOf "Fiducial#55", inv T)], none) := by
  constructor
  · intro hcfg hsupp
    simp only [processMarkers, hcfg]
    by_cases hinv : base = mo ∧ fr = me
    · rw [if_pos hinv, if_pos hinv]
    · have hfr : fr = base := hsupp.resolve_right hinv
      rw [if_neg hinv, if_neg hinv, if_neg (fun hne => hne hfr)]
  · simp [run_one, scenarioState, initHandles, moveBoneParams,
      MotionConfigParamsToVrepHandleConfigMap, MotionConfigParamsAddConfig,
      lexicalCastInt, parseDigitsAux, mkConnectedState, processMarkers,
      resolveConfig, emptyConfigMap]

/-- C1 witness: the inversion branch at concrete handles (base 8 moves within
frame 2 measuring object 2), and the concrete 55 scenario under a concrete
handle-resolution function. -/
theorem run_one_inversion_condition_witness :
    (processMarkers 8 c1WitnessCfg Int.neg [⟨5, 10⟩] =
      ((8, 2, if (8 : Int) = 8 ∧ (2 : Int) = 2 then Int.neg 10 else 10)
          :: (processMarkers 8 c1WitnessCfg Int.neg []).1,
        (processMarkers 8 c1WitnessCfg Int.neg []).2)) ∧
    run_one Int.neg (scenarioState c1WitnessHandle (10 : Int)) =
      ([(c1WitnessHandle "OpticalTrackerBase#0", c1WitnessHandle "Fiducial#55",
          Int.neg 10)], none) :=
  ⟨(run_one_inversion_condition c1WitnessHandle Int.neg 8 8 2 2 5 c1WitnessCfg 10 []).1
      (by decide) (Or.inr (by decide)),
   (run_one_inversion_condition c1WitnessHandle Int.neg 8 8 2 2 5 c1WitnessCfg 10 []).2⟩

/-- C2: for a configured marker whose configuration does not satisfy the
inversion condition and whose frame to move within is not the tracker base,
run_one raises the unsupported-configuration runtime error and invokes the
target-update collaborator neither for that marker nor for any other. -/
theorem run_one_unsupported_raises {α : Type} (inv : α → α) (s : PluginState α)
    (mo fr me g : Int) (T : α) (rest ns0 : List (Marker α))
    (hexc : s.exceptionPtr = none) (hconn : s.isConnectionEstablished = true)
    (hhandles : s.allHandlesSet = true) (htracker : s.opticalTracker = true)
    (hframe : s.receivedFrame = some (⟨g, T⟩ :: rest)) (hnext : s.nextState = some ns0)
    (hcfg : s.configMap g = some (mo, fr, me))
    (hnotinv : ¬(s.opticalTrackerBase = mo ∧ fr = me))
    (hnotbase : fr ≠ s.opticalTrackerBase) :
    run_one inv s = ([], some .unsupportedConfiguration) := by
  simp [run_one, hexc, hconn, hhandles, htracker, hframe, hnext, processMarkers,
    hcfg, hnotinv, hnotbase]

/-- C2 witness: geometry 5 configured as (move 1, within 2, measuring 3)
against tracker base 9. -/
theorem run_one_unsupported_raises_witness :
    run_one (fun t => -t) (mkConnectedState 9 unsupportedCfgMap [⟨5, (0 : Int)⟩]) =
      ([], some .unsupportedConfiguration) :=
  run_one_unsupported_raises (fun t => -t)
    (mkConnectedState 9 unsupportedCfgMap [⟨5, (0 : Int)⟩]) 1 2 3 5 0 [] []
    rfl rfl rfl rfl rfl rfl (by decide) (by decide) (by decide)

/-- C10: run_one is not atomic on error: if the frame is a clean prefix
followed by an unsupported configured marker, the collaborator has been
invoked exactly for the configured supported markers of the prefix, the
unsupported-configuration error is raised there, and no marker at or after
the failing one is forwarded. -/
theorem run_one_partial_updates_on_error {α : Type} (base : Int)
    (cfg : GeometryIDToVrepMotionConfigMap) (inv : α → α)
    (ms1 ms2 : List (Marker α)) (cs : List (SetTransformCall α))
    (g mo fr me : Int) (T : α)
    (hpre : processMarkers base cfg inv ms1 = (cs, none))
    (hcfg : cfg g = some (mo, fr, me))
    (hnotinv : ¬(base = mo ∧ fr = me)) (hnotbase : fr ≠ base) :
    processMarkers base cfg inv (ms1 ++ ⟨g, T⟩ :: ms2) =
      (cs, some .unsupportedConfiguration) := by
  induction ms1 generalizing cs with
  | nil =>
    have hcs : cs = [] := by
      have := congrArg Prod.fst hpre
      simpa [processMarkers] using this.symm
    subst hcs
    simp [processMarkers, hcfg, hnotinv, hnotbase]
  | cons mk0 ms1x ih =>
    rcases hc : cfg mk0.geometryId with _ | ⟨mo2, fr2, me2⟩
    · simp only [List.cons_append, processMarkers, hc] at hpre ⊢
      exact ih cs hpre
    · by_cases hI : base = mo2 ∧ fr2 = me2
      · simp only [List.cons_append, processMarkers, hc, if_pos hI, List.append_eq] at hpre ⊢
        rcases hrec : processMarkers base cfg inv ms1x with ⟨cs2, err2⟩
        rw [hrec] at hpre
        have h1 : (mo2, fr2, inv mk0.pose) :: cs2 = cs := by
          simpa using congrArg Prod.fst hpre
        have h2 : err2 = none := by
          simpa using congrArg Prod.snd hpre
        subst h2
        rw [ih cs2 hrec]
        rw [← h1]
      · by_cases hB : fr2 ≠ base
        · simp only [List.cons_append, processMarkers, hc, if_neg hI, if_pos hB] at hpre
          exact absurd (congrArg Prod.snd hpre) (by simp)
        · simp only [List.cons_append, processMarkers, hc, if_neg hI, if_neg hB,
            List.append_eq] at hpre ⊢
          rcases hrec : processMarkers base cfg inv ms1x with ⟨cs2, err2⟩
          rw [hrec] at hpre
          have h1 : (mo2, fr2, mk0.pose) :: cs2 = cs := by
            simpa using congrArg Prod.fst hpre
          have h2 : err2 = none := by
            simpa using congrArg Prod.snd hpre
          subst h2
          rw [ih cs2 hrec]
          rw [← h1]

/-- C10 witness: a frame holding a supported inverted marker (geometry 5),
then an unsupported marker (geometry 6), then another marker; exactly the
first marker's update is forwarded. -/
theorem run_one_partial_updates_on_error_witness :
    processMarkers 8 c10Cfg Int.neg ([⟨5, 10⟩] ++ ⟨6, 11⟩ :: [⟨5, 12⟩]) =
      ([(8, 2, Int.neg 10)], some .unsupportedConfiguration) :=
  run_one_partial_updates_on_error 8 c10Cfg Int.neg [⟨5, 10⟩] [⟨5, 12⟩]
    [(8, 2, Int.neg 10)] 6 1 2 3 11 (by decide) (by decide) (by decide) (by decide)

/-- C6: save_recording detaches the active builder and its record sequence
into the scheduled save task, immediately installs a fresh empty builder and
record vector, the detached task finalizes exactly the flushed data, and a
subsequent append goes into the fresh buffer. -/
theorem save_recording_detaches_and_continues {α : Type} (s : PluginState α)
    (filename timestamp : String) (b : List (List (Marker α))) (msgs : List Nat)
    (f2 : List (Marker α))
    (hb : s.logFileBufferBuilder = some b) (hm : s.messageBuffer = some msgs) :
    (save_recording s filename timestamp).saveRecordingThreads =
      s.saveRecordingThreads ++ [⟨some b, some msgs, saveFilename timestamp filename⟩] ∧
    (save_recording s filename timestamp).logFileBufferBuilder = some [] ∧
    (save_recording s filename timestamp).messageBuffer = some [] ∧
    runSaveTask (⟨some b, some msgs, saveFilename timestamp filename⟩ : SaveTask α) =
      .ok (b, msgs, saveFilename timestamp filename) ∧
    recordFrame (save_recording s filename timestamp) f2 =
      some { save_recording s filename timestamp with
             logFileBufferBuilder := some [f2], messageBuffer := some [0] } := by
  refine ⟨by simp [save_recording, hb, hm], rfl, rfl, rfl, ?_⟩
  simp [recordFrame, save_recording]

/-- C6 witness: a state with one recorded frame, flushed with an empty
filename at a concrete timestamp, then appending a fresh frame. -/
theorem save_recording_detaches_and_continues_witness :
    (save_recording recordingState "" "TS").saveRecordingThreads =
      recordingState.saveRecordingThreads ++
        [⟨some [[⟨1, 2⟩]], some [0], saveFilename "TS" ""⟩] ∧
    (save_recording recordingState "" "TS").logFileBufferBuilder = some [] ∧
    (save_recording recordingState "" "TS").messageBuffer = some [] ∧
    runSaveTask (⟨some [[⟨1, 2⟩]], some [0], saveFilename "TS" ""⟩ : SaveTask Int) =
      .ok ([[⟨1, 2⟩]], [0], saveFilename "TS" "") ∧
    recordFrame (save_recording recordingState "" "TS") [⟨3, 4⟩] =
      some { save_recording recordingState "" "TS" with
             logFileBufferBuilder := some [[⟨3, 4⟩]], messageBuffer := some [0] } :=
  save_recording_detaches_and_continues recordingState "" "TS" [[⟨1, 2⟩]] [0] [⟨3, 4⟩]
    rfl rfl

/-- The recording block never touches the fault pointer or the stop flag. -/
theorem recordFrame_preserves {α : Type} (s : PluginState α) (f : List (Marker α))
    (s1 : PluginState α) (h : recordFrame s f = some s1) :
    s1.exceptionPtr = s.exceptionPtr ∧ s1.shouldStop = s.shouldStop := by
  cases hb : s.logFileBufferBuilder with
  | none =>
    simp only [recordFrame, hb, Option.some.injEq] at h
    subst h
    exact ⟨rfl, rfl⟩
  | some b =>
    cases hm : s.messageBuffer with
    | none => simp [recordFrame, hb, hm] at h
    | some ms =>
      simp only [recordFrame, hb, hm, Option.some.injEq] at h
      subst h
      exact ⟨rfl, rfl⟩

/-- No operation writes the captured fault pointer: a fault, once captured,
is never cleared nor replaced by the consumer surface or the driver loop. -/
theorem applyPluginOp_exceptionPtr {α : Type} (handleOf : String → Int)
    (op : PluginOp α) (s : PluginState α) :
    (applyPluginOp handleOf op s).exceptionPtr = s.exceptionPtr := by
  cases op with
  | addObject mcp => rfl
  | removeGeometryInt g => rfl
  | removeGeometryString str =>
    simp only [applyPluginOp, remove_geometry_str]
    cases lexicalCastInt str <;> rfl
  | clearObjects => rfl
  | startRecording => rfl
  | stopRecording => rfl
  | saveRecordingOp fn ts => rfl
  | clearRecordingOp => rfl
  | tick => rfl
  | destructOp => rfl
  | loopStep recv =>
    simp only [applyPluginOp, update_loop_iteration]
    by_cases hstop : s.shouldStop
    · simp [hstop, loopStepState]
    · cases recv with
      | error e => simp [hstop, loopStepState]
      | ok frame =>
        by_cases hrec : s.isRecording
        · simp only [hstop, hrec, Bool.false_eq_true, if_false, if_true]
          split
          next s1 hrf =>
            simp only [loopStepState]
            rw [(recordFrame_preserves _ _ _ hrf).1]
          next hrf =>
            simp [loopStepState]
        · simp [hstop, hrec, loopStepState]

/-- No operation clears the stop flag once it is set. -/
theorem applyPluginOp_shouldStop {α : Type} (handleOf : String → Int)
    (op : PluginOp α) (s : PluginState α) (hstop : s.shouldStop = true) :
    (applyPluginOp handleOf op s).shouldStop = true := by
  cases op with
  | addObject mcp => exact hstop
  | removeGeometryInt g => exact hstop
  | removeGeometryString str =>
    simp only [applyPluginOp, remove_geometry_str]
    cases lexicalCastInt str <;> exact hstop
  | clearObjects => exact hstop
  | startRecording => exact hstop
  | stopRecording => exact hstop
  | saveRecordingOp fn ts => exact hstop
  | clearRecordingOp => exact hstop
  | tick => exact hstop
  | destructOp => rfl
  | loopStep recv =>
    simp [applyPluginOp, update_loop_iteration, hstop, loopStepState]

/-- Fault-pointer preservation over any sequence of operations. -/
theorem applyPluginOps_exceptionPtr {α : Type} (handleOf : String → Int)
    (ops : List (PluginOp α)) (s : PluginState α) :
    (applyPluginOps handleOf ops s).exceptionPtr = s.exceptionPtr := by
  induction ops generalizing s with
  | nil => rfl
  | cons op rest ih =>
    rw [show applyPluginOps handleOf (op :: rest) s =
          applyPluginOps handleOf rest (applyPluginOp handleOf op s) from rfl,
      ih (applyPluginOp handleOf op s), applyPluginOp_exceptionPtr]

/-- Stop-flag preservation over any sequence of operations. -/
theorem applyPluginOps_shouldStop {α : Type} (handleOf : String → Int)
    (ops : List (PluginOp α)) (s : PluginState α) (hstop : s.shouldStop = true) :
    (applyPluginOps handleOf ops s).shouldStop = true := by
  induction ops generalizing s with
  | nil => exact hstop
  | cons op rest ih =>
    exact ih (applyPluginOp handleOf op s) (applyPluginOp_shouldStop handleOf op s hstop)

/-- C3 (amended): a fault captured by the driver-thread initialisation is
terminal: capture sets the stop flag, so the acquisition loop refuses every
further iteration; after any sequence of consumer-facing calls and loop steps
the same fault is still stored, run_one re-raises exactly it and performs no
target update, and nothing ever clears it before teardown. -/
theorem captured_fault_terminal {α : Type} (handleOf : String → Int) (inv : α → α)
    (s0 : PluginState α) (e : ConnFault) (ops : List (PluginOp α)) :
    (update_init s0 (.error e)).exceptionPtr = some e ∧
    (update_init s0 (.error e)).shouldStop = true ∧
    (applyPluginOps handleOf ops (update_init s0 (.error e))).exceptionPtr = some e ∧
    (applyPluginOps handleOf ops (update_init s0 (.error e))).shouldStop = true ∧
    run_one inv (applyPluginOps handleOf ops (update_init s0 (.error e))) =
      ([], some (.capturedFault e)) ∧
    ∀ recv, update_loop_iteration (applyPluginOps handleOf ops (update_init s0 (.error e))) recv =
      .exited (applyPluginOps handleOf ops (update_init s0 (.error e))) := by
  have hE : (applyPluginOps handleOf ops (update_init s0 (.error e))).exceptionPtr = some e := by
    rw [applyPluginOps_exceptionPtr]; rfl
  have hS : (applyPluginOps handleOf ops (update_init s0 (.error e))).shouldStop = true :=
    applyPluginOps_shouldStop handleOf ops _ rfl
  refine ⟨rfl, rfl, hE, hS, ?_, fun recv => ?_⟩
  · simp [run_one, hE]
  · simp [update_loop_iteration, hS]

/-- C3 counterexample: a receive failure in the running acquisition loop is
not captured — the loop-step outcome is an uncaught escape of the exception,
the fault pointer stays empty, and a subsequent run_one proceeds normally
instead of surfacing the fault. -/
theorem receive_fault_not_captured :
    update_loop_iteration (mkConnectedState 0 emptyConfigMap ([] : List (Marker Int)))
        (.error ⟨3⟩) =
      .uncaughtReceive ⟨3⟩ (mkConnectedState 0 emptyConfigMap []) ∧
    (mkConnectedState 0 emptyConfigMap ([] : List (Marker Int))).exceptionPtr = none ∧
    run_one (fun t => -t) (mkConnectedState 0 emptyConfigMap ([] : List (Marker Int))) =
      ([], none) :=
  ⟨rfl, rfl, rfl⟩

end grl
